import Mathlib

/-!
Verification development for the financial scoring and prediction engine of
the ExplorerPM repository.  The Python sources are shallowly embedded:

* a `UserData` value models the user-profile dictionary (string keys mapped
  to numeric or string values; `get` with a default mirrors Python
  `dict.get(key, default)`);
* `FinancialDashboard.calculate_financial_health_score`,
  `FinancialDashboard.calculate_risk_factors` embed
  `src/components/dashboard.py`;
* `DataPreprocessor.calculate_financial_ratios` embeds
  `src/utils/data_preprocessing.py`;
* `FinancialModels.*` embeds `src/models/financial_models.py`; the sklearn
  models are abstract functions held in an explicit state record, and the
  outcome of loading/fitting the reference dataset is an explicit
  environment parameter.

All Python floats are modelled as rationals (`ℚ`); every arithmetic
operation used by the code (`+`, `*`, `/`, `min`, `max`, comparisons) is
exact on the inputs concerned, so the control flow of the embedding matches
the source exactly.  Python dicts preserve insertion order, so dict results
are modelled as association lists built in insertion order.
-/

/-- First-match association-list lookup, modelling Python `dict` access on
string keys (our lists never contain a duplicate key). -/
def lookupKey {α : Type} : List (String × α) → String → Option α
  | [], _ => none
  | (k, v) :: rest, key => if k = key then some v else lookupKey rest key

/-- Replace the value at a key, or append the binding if the key is absent,
modelling Python `dict` item assignment / dict update. -/
def setKey {α : Type} : List (String × α) → String → α → List (String × α)
  | [], key, v => [(key, v)]
  | (k, w) :: rest, key, v =>
      if k = key then (key, v) :: rest else (k, w) :: setKey rest key v

/-- A user profile: the open mapping the UI hands to the engine.  Numeric
fields and categorical (string) fields are kept in separate association
lists, modelling a well-typed Python dict. -/
structure UserData where
  numEntries : List (String × ℚ)
  strEntries : List (String × String)

/-- Python `user_data.get(key, default)` for a numeric field. -/
def UserData.getNum (d : UserData) (k : String) (dflt : ℚ) : ℚ :=
  (lookupKey d.numEntries k).getD dflt

/-- Python `user_data.get(key, default)` for a categorical field. -/
def UserData.getStr (d : UserData) (k : String) (dflt : String) : String :=
  (lookupKey d.strEntries k).getD dflt

/-- Python truthiness test `not user_data` on the profile dict. -/
def UserData.isEmpty (d : UserData) : Bool :=
  d.numEntries.isEmpty && d.strEntries.isEmpty

/-- Overwrite one numeric field of a profile. -/
def UserData.setNum (d : UserData) (k : String) (v : ℚ) : UserData :=
  ⟨setKey d.numEntries k v, d.strEntries⟩

/-- All numeric fields of the profile are non-negative. -/
abbrev NonNegData (d : UserData) : Prop := ∀ p ∈ d.numEntries, 0 ≤ p.2

theorem lookupKey_mem {α : Type} {l : List (String × α)} {k : String} {v : α}
    (h : lookupKey l k = some v) : (k, v) ∈ l := by
  induction l with
  | nil => simp [lookupKey] at h
  | cons p rest ih =>
      obtain ⟨k', v'⟩ := p
      by_cases hk : k' = k
      · subst hk
        simp [lookupKey] at h
        simp [h]
      · simp [lookupKey, hk] at h
        exact List.mem_cons_of_mem _ (ih h)

theorem getNum_nonneg {d : UserData} (h : NonNegData d) (k : String) :
    0 ≤ d.getNum k 0 := by
  unfold UserData.getNum
  cases hl : lookupKey d.numEntries k with
  | none => simp
  | some v =>
      simpa using h (k, v) (lookupKey_mem hl)

theorem lookupKey_setKey_self {α : Type} (l : List (String × α)) (k : String) (v : α) :
    lookupKey (setKey l k v) k = some v := by
  induction l with
  | nil => simp [setKey, lookupKey]
  | cons p rest ih =>
      obtain ⟨k', v'⟩ := p
      by_cases hk : k' = k
      · subst hk
        simp [setKey, lookupKey]
      · simp [setKey, lookupKey, hk, ih]

theorem lookupKey_setKey_other {α : Type} (l : List (String × α)) (k k' : String) (v : α)
    (h : k ≠ k') : lookupKey (setKey l k v) k' = lookupKey l k' := by
  induction l with
  | nil => simp [setKey, lookupKey, h]
  | cons p rest ih =>
      obtain ⟨ka, va⟩ := p
      by_cases hk : ka = k
      · subst hk
        simp [setKey, lookupKey, h]
      · simp [setKey, lookupKey, hk, ih]

theorem getNum_setNum_self (d : UserData) (k : String) (v : ℚ) (dflt : ℚ) :
    (d.setNum k v).getNum k dflt = v := by
  simp [UserData.getNum, UserData.setNum, lookupKey_setKey_self]

theorem getNum_setNum_other (d : UserData) (k k' : String) (v : ℚ) (dflt : ℚ)
    (h : k ≠ k') : (d.setNum k v).getNum k' dflt = d.getNum k' dflt := by
  simp [UserData.getNum, UserData.setNum, lookupKey_setKey_other _ _ _ _ h]

namespace FinancialDashboard

/-- The `elif` ladder for the debt-management component of the health score
(`dashboard.py` lines 358-366). -/
def debtTier (r : ℚ) : ℚ :=
  if r < 0.2 then 20 else if r < 0.4 then 15 else if r < 0.6 then 10 else 5

/-- The `elif` ladder for the emergency-fund component of the health score
(`dashboard.py` lines 372-378). -/
def emergencyTier (m : ℚ) : ℚ :=
  if m ≥ 6 then 15 else if m ≥ 3 then 10 else if m ≥ 1 then 5 else 0

/-- The `elif` ladder for the investment-allocation component of the health
score (`dashboard.py` lines 384-392). -/
def investmentTier (r : ℚ) : ℚ :=
  if r ≥ 0.3 then 20 else if r ≥ 0.15 then 15 else if r ≥ 0.05 then 10 else 5

/-- Embedding of `FinancialDashboard.calculate_financial_health_score`
(`dashboard.py` lines 339-394).  The Python method accumulates `score += c`
over the five components in order; the embedding writes the same
accumulation as a sum of the five per-component contributions, each of
which mirrors its code block, and finishes with the `min(100, score)` cap. -/
def calculate_financial_health_score (d : UserData) : ℚ :=
  let income := d.getNum "net_monthly_income" 0
  let savings := d.getNum "savings_total" 0
  let incomeScore : ℚ := if income > 0 then 20 else 0
  let savingsScore : ℚ :=
    if income > 0 then min 25 (savings / 12 / income * 125) else 0
  let debt := d.getNum "debts_total" 0
  let annual_income := if income > 0 then income * 12 else 1
  let debtScore := debtTier (debt / annual_income)
  let emergency_fund := d.getNum "emergency_fund" 0
  let monthly_expenses := d.getNum "fixed_costs_total" 0
  let emergencyScore : ℚ :=
    if monthly_expenses > 0 then emergencyTier (emergency_fund / monthly_expenses) else 0
  let investments := d.getNum "investments_total" 0
  let total_assets := d.getNum "assets_total" 0
  let investmentScore : ℚ :=
    if total_assets > 0 then investmentTier (investments / total_assets) else 0
  min 100 (incomeScore + savingsScore + debtScore + emergencyScore + investmentScore)

/-- Embedding of `FinancialDashboard.calculate_risk_factors`
(`dashboard.py` lines 407-460).  Every branch of the Python method assigns
its category key, so the resulting dict always holds the same five keys in
insertion order. -/
def calculate_risk_factors (d : UserData) : List (String × ℚ) :=
  let income := d.getNum "net_monthly_income" 0
  let debt := d.getNum "debts_total" 0
  let debtRisk : ℚ :=
    if income > 0 then min 10 (debt / (income * 12) * 25) else 10
  let emergency_fund := d.getNum "emergency_fund" 0
  let monthly_expenses := d.getNum "fixed_costs_total" 0
  let emergencyRisk : ℚ :=
    if monthly_expenses > 0 then max 0 (10 - emergency_fund / monthly_expenses * 1.5) else 8
  let investments := d.getNum "investments_total" 0
  let total_assets := d.getNum "assets_total" 0
  let investmentRisk : ℚ :=
    if total_assets > 0 then
      (if investments / total_assets > 0.8 then 7
       else if investments / total_assets < 0.1 then 6 else 3)
    else 5
  let insurance := d.getNum "insurance" 0
  let insuranceRisk : ℚ :=
    if income > 0 then max 0 (8 - insurance / income * 20) else 8
  let expenses := d.getNum "fixed_costs_total" 0
  let expenseRisk : ℚ :=
    if income > 0 then min 10 (expenses / income * 12) else 8
  [("Debt Risk", debtRisk),
   ("Emergency Fund", emergencyRisk),
   ("Investment Risk", investmentRisk),
   ("Insurance Coverage", insuranceRisk),
   ("Expense Management", expenseRisk)]

end FinancialDashboard

namespace DataPreprocessor

/-- Embedding of `DataPreprocessor.calculate_financial_ratios`
(`data_preprocessing.py` lines 174-211).  Each ratio key is inserted only
when its denominator test passes; concatenation in source order models the
insertion-ordered Python dict. -/
def calculate_financial_ratios (d : UserData) : List (String × ℚ) :=
  let net_income := d.getNum "net_monthly_income" 0
  let gross_income := d.getNum "gross_monthly_income" 0
  let r1 := if gross_income > 0 then [("tax_efficiency", net_income / gross_income)] else []
  let fixed_costs := d.getNum "fixed_costs_total" 0
  let r2 := if net_income > 0 then [("expense_ratio", fixed_costs / net_income)] else []
  let savings := d.getNum "savings_total" 0
  let r3 := if net_income > 0 then [("savings_rate", savings / 12 / net_income)] else []
  let debts := d.getNum "debts_total" 0
  let r4 := if net_income > 0 then [("debt_to_income", debts / (net_income * 12))] else []
  let investments := d.getNum "investments_total" 0
  let assets := d.getNum "assets_total" 0
  let r5 := if assets > 0 then [("investment_allocation", investments / assets)] else []
  let emergency_fund := d.getNum "emergency_fund" 0
  let r6 := if fixed_costs > 0 then [("emergency_fund_months", emergency_fund / fixed_costs)] else []
  r1 ++ r2 ++ r3 ++ r4 ++ r5 ++ r6

end DataPreprocessor

/-- A fitted sklearn `LabelEncoder`: its `classes_` attribute, with
`transform` mapping a known label to its index among the sorted classes
(the embedding keeps the class list abstract, so the index function is the
only behaviour used). -/
structure LabelEncoder where
  classes : List String

/-- Model of `encoder.transform([s])[0]` for a label `s` known to the
encoder. -/
def LabelEncoder.transformOne (e : LabelEncoder) (s : String) : ℚ :=
  ((e.classes.indexOf s : ℕ) : ℚ)

/-- The mutable state of a `FinancialModels` instance
(`financial_models.py` lines 12-19): the four sklearn models (abstract
functions from the 10-feature vector to a prediction; the risk classifier
returns its `predict_proba` row), the fitted label encoders, and the
`is_trained` flag. -/
structure FinancialModels where
  expense_model : Option (List ℚ → ℚ)
  investment_model : Option (List ℚ → ℚ)
  risk_model : Option (List ℚ → List ℚ)
  insurance_model : Option (List ℚ → ℚ)
  label_encoders : List (String × LabelEncoder)
  is_trained : Bool

/-- A fresh `FinancialModels()` instance: no models, no encoders, untrained. -/
def FinancialModels.fresh : FinancialModels :=
  ⟨none, none, none, none, [], false⟩

/-- Result of a successful `train_models` run: the encoders fitted by
`preprocess_data` and the four fitted models. -/
structure TrainedArtifacts where
  encoders : List (String × LabelEncoder)
  expenseFit : List ℚ → ℚ
  investmentFit : List ℚ → ℚ
  riskFit : List ℚ → List ℚ
  insuranceFit : List ℚ → ℚ

/-- The training environment: `dataset = none` models
`load_training_data` returning `None` (the reference CSV
`attached_assets/financial_data_final_...csv` unavailable), in which case
`train_models` returns `False` with the state untouched; `dataset = some a`
models a load whose preprocessing and four fits all succeed with the given
artifacts. -/
structure TrainEnv where
  dataset : Option TrainedArtifacts

/-- Embedding of `FinancialModels.train_models`
(`financial_models.py` lines 80-132): on missing data it returns `False`
leaving the state unchanged; on success it installs the four fitted models
and the encoders and sets `is_trained`. -/
def FinancialModels.train_models (m : FinancialModels) (env : TrainEnv) :
    Bool × FinancialModels :=
  match env.dataset with
  | none => (false, m)
  | some a =>
      (true,
       { expense_model := some a.expenseFit,
         investment_model := some a.investmentFit,
         risk_model := some a.riskFit,
         insurance_model := some a.insuranceFit,
         label_encoders := a.encoders,
         is_trained := true })

/-- Embedding of `FinancialModels.prepare_user_features`
(`financial_models.py` lines 134-179): `None` on an empty profile dict,
otherwise the fixed 10-dimensional feature vector, with absent fields
replaced by the defaults of the `user_data.get` calls and the two
categorical fields encoded through the frozen label encoders (0 when the
encoder is missing or the label unseen). -/
def FinancialModels.prepare_user_features (m : FinancialModels) (d : UserData) :
    Option (List ℚ) :=
  if d.isEmpty then none
  else
    let income_type_encoded : ℚ :=
      match lookupKey m.label_encoders "income_type" with
      | some enc =>
          let it := d.getStr "income_type" "single_income"
          if it ∈ enc.classes then enc.transformOne it else 0
      | none => 0
    let class_encoded : ℚ :=
      match lookupKey m.label_encoders "class" with
      | some enc =>
          let sc := d.getStr "class" "middle"
          if sc ∈ enc.classes then enc.transformOne sc else 0
      | none => 0
    some [d.getNum "household_size" 1,
          d.getNum "number_of_kids" 0,
          income_type_encoded,
          class_encoded,
          d.getNum "gross_monthly_income" 0,
          d.getNum "net_monthly_income" 0,
          d.getNum "assets_total" 0,
          d.getNum "investments_total" 0,
          d.getNum "savings_total" 0,
          d.getNum "debts_total" 0]

/-- The lazy-training preamble `if not self.is_trained: self.train_models()`
shared by the four predict methods: the state actually used for the
prediction. -/
def FinancialModels.afterLazyTrain (m : FinancialModels) (env : TrainEnv) :
    FinancialModels :=
  if m.is_trained then m else (m.train_models env).2

/-- Embedding of `FinancialModels.predict_expenses`
(`financial_models.py` lines 181-191): 0 when features or the model are
unavailable, otherwise the regressor's prediction. -/
def FinancialModels.predict_expenses (m : FinancialModels) (env : TrainEnv)
    (d : UserData) : ℚ :=
  let m1 := m.afterLazyTrain env
  match m1.prepare_user_features d, m1.expense_model with
  | some feats, some f => f feats
  | _, _ => 0

/-- Embedding of `FinancialModels.predict_investment_potential`
(`financial_models.py` lines 193-203). -/
def FinancialModels.predict_investment_potential (m : FinancialModels)
    (env : TrainEnv) (d : UserData) : ℚ :=
  let m1 := m.afterLazyTrain env
  match m1.prepare_user_features d, m1.investment_model with
  | some feats, some f => f feats
  | _, _ => 0

/-- Embedding of `FinancialModels.assess_risk`
(`financial_models.py` lines 205-218): 0.5 when features or the classifier
are unavailable, otherwise `predict_proba(features)[0][1]` when the
probability row has more than one entry, else 0.5. -/
def FinancialModels.assess_risk (m : FinancialModels) (env : TrainEnv)
    (d : UserData) : ℚ :=
  let m1 := m.afterLazyTrain env
  match m1.prepare_user_features d, m1.risk_model with
  | some feats, some f =>
      match f feats with
      | _ :: p1 :: _ => p1
      | _ => 0.5
  | _, _ => 0.5

/-- Embedding of `FinancialModels.predict_insurance_need`
(`financial_models.py` lines 220-230). -/
def FinancialModels.predict_insurance_need (m : FinancialModels)
    (env : TrainEnv) (d : UserData) : ℚ :=
  let m1 := m.afterLazyTrain env
  match m1.prepare_user_features d, m1.insurance_model with
  | some feats, some f => f feats
  | _, _ => 0

/-- One horizon record of the prediction dict. -/
structure HorizonPred where
  savings_growth : ℚ
  investment_returns : ℚ
  risk_score : ℚ
  health_status : String
  deriving DecidableEq, Repr

/-- Embedding of `FinancialModels.generate_predictions`
(`financial_models.py` lines 232-270): if untrained it first runs
`train_models` and returns the empty dict `{}` when that fails; otherwise
it computes the four base predictions (the expense and insurance
predictions are computed but unused by the source) and builds the
three-horizon dict from the fixed growth multipliers. -/
def FinancialModels.generate_predictions (m : FinancialModels) (env : TrainEnv)
    (d : UserData) : List (String × HorizonPred) :=
  let trained := if m.is_trained then (true, m) else m.train_models env
  if trained.1 = false then []
  else
    let m1 := trained.2
    let expense_pred := m1.predict_expenses env d
    let investment_pred := m1.predict_investment_potential env d
    let risk_sc := m1.assess_risk env d
    let insurance_pred := m1.predict_insurance_need env d
    let current_income := d.getNum "net_monthly_income" 0
    let current_savings := d.getNum "savings_total" 0
    [("1_year",
      { savings_growth := current_savings * 1.1 + current_income * 0.2 * 12,
        investment_returns := investment_pred * 0.12,
        risk_score := risk_sc * 10,
        health_status :=
          if risk_sc < 0.3 then "Good"
          else if risk_sc < 0.7 then "Moderate" else "High Risk" }),
     ("3_year",
      { savings_growth := current_savings * 1.35 + current_income * 0.2 * 36,
        investment_returns := investment_pred * 0.4,
        risk_score := risk_sc * 10,
        health_status :=
          if risk_sc < 0.3 then "Good"
          else if risk_sc < 0.7 then "Moderate" else "High Risk" }),
     ("10_year",
      { savings_growth := current_savings * 2.5 + current_income * 0.25 * 120,
        investment_returns := investment_pred * 1.8,
        risk_score := risk_sc * 10,
        health_status :=
          if risk_sc < 0.2 then "Excellent"
          else if risk_sc < 0.5 then "Good" else "Moderate" })]

/-! Concrete inputs used to instantiate the theorems below. -/

/-- The worked example profile of the specification (§8). -/
def profileC6 : UserData :=
  ⟨[("net_monthly_income", 65000), ("savings_total", 150000),
    ("debts_total", 800000), ("investments_total", 400000),
    ("assets_total", 2500000), ("emergency_fund", 200000),
    ("fixed_costs_total", 58500)], []⟩

/-- A small profile with income and savings only. -/
def profileSmall : UserData :=
  ⟨[("net_monthly_income", 1000), ("savings_total", 500)], []⟩

/-- A profile whose net monthly income is zero but whose gross monthly
income is positive. -/
def profileZeroNet : UserData :=
  ⟨[("net_monthly_income", 0), ("gross_monthly_income", 100)], []⟩

/-- A profile recording only a zero net monthly income. -/
def profileNoIncome : UserData :=
  ⟨[("net_monthly_income", 0)], []⟩

/-- A non-empty profile that omits every feature-vector field. -/
def profileOnlyAge : UserData :=
  ⟨[("age", 30)], []⟩

/-- A predictor state that is marked trained while all four models are
unavailable: every prediction degrades to its neutral default. -/
def mDegraded : FinancialModels :=
  ⟨none, none, none, none, [], true⟩

/-- A trained state whose expense and insurance models are present (and
produce a non-zero output) while the investment and risk models are
unavailable. -/
def mExpenseOnly : FinancialModels :=
  ⟨some (fun _ => 4242), none, none, some (fun _ => 777), [], true⟩

/-- The training environment in which the reference dataset is unavailable. -/
def envNoData : TrainEnv := ⟨none⟩

/-! Helper lemmas about the tier ladders. -/

theorem debtTier_bounds (r : ℚ) :
    5 ≤ FinancialDashboard.debtTier r ∧ FinancialDashboard.debtTier r ≤ 20 := by
  unfold FinancialDashboard.debtTier
  split_ifs <;> norm_num

theorem emergencyTier_bounds (m : ℚ) :
    0 ≤ FinancialDashboard.emergencyTier m ∧ FinancialDashboard.emergencyTier m ≤ 15 := by
  unfold FinancialDashboard.emergencyTier
  split_ifs <;> norm_num

theorem investmentTier_bounds (r : ℚ) :
    5 ≤ FinancialDashboard.investmentTier r ∧ FinancialDashboard.investmentTier r ≤ 20 := by
  unfold FinancialDashboard.investmentTier
  split_ifs <;> norm_num

/-- C2: for every profile whose numeric fields are all non-negative, the
health score returned by `calculate_financial_health_score` lies in the
closed interval `[0, 100]`, however large the field values are. -/
theorem C2_health_score_in_range (d : UserData) (h : NonNegData d) :
    0 ≤ FinancialDashboard.calculate_financial_health_score d ∧
      FinancialDashboard.calculate_financial_health_score d ≤ 100 := by
  have hsav := getNum_nonneg h "savings_total"
  have hbd := debtTier_bounds (d.getNum "debts_total" 0 /
    if d.getNum "net_monthly_income" 0 > 0 then d.getNum "net_monthly_income" 0 * 12 else 1)
  have hbe := emergencyTier_bounds
    (d.getNum "emergency_fund" 0 / d.getNum "fixed_costs_total" 0)
  have hbi := investmentTier_bounds
    (d.getNum "investments_total" 0 / d.getNum "assets_total" 0)
  have hA : (0:ℚ) ≤ if d.getNum "net_monthly_income" 0 > 0 then (20:ℚ) else 0 := by
    split_ifs <;> norm_num
  have hB : (0:ℚ) ≤
      if d.getNum "net_monthly_income" 0 > 0 then
        min 25 (d.getNum "savings_total" 0 / 12 / d.getNum "net_monthly_income" 0 * 125)
      else 0 := by
    split_ifs with hinc
    · exact le_min (by norm_num)
        (mul_nonneg (div_nonneg (div_nonneg hsav (by norm_num)) hinc.le) (by norm_num))
    · exact le_rfl
  have hD : (0:ℚ) ≤
      if d.getNum "fixed_costs_total" 0 > 0 then
        FinancialDashboard.emergencyTier
          (d.getNum "emergency_fund" 0 / d.getNum "fixed_costs_total" 0)
      else 0 := by
    split_ifs
    · exact hbe.1
    · exact le_rfl
  have hE : (0:ℚ) ≤
      if d.getNum "assets_total" 0 > 0 then
        FinancialDashboard.investmentTier
          (d.getNum "investments_total" 0 / d.getNum "assets_total" 0)
      else 0 := by
    split_ifs
    · linarith [hbi.1]
    · exact le_rfl
  simp only [FinancialDashboard.calculate_financial_health_score]
  exact ⟨le_min (by norm_num) (by linarith [hbd.1]), min_le_left _ _⟩

/-- C2 witness: the bounds hold at the spec's worked example profile. -/
theorem C2_health_score_in_range_witness :
    NonNegData profileC6 ∧
      (0 ≤ FinancialDashboard.calculate_financial_health_score profileC6 ∧
        FinancialDashboard.calculate_financial_health_score profileC6 ≤ 100) :=
  ⟨by decide, C2_health_score_in_range profileC6 (by decide)⟩

/-- C6: on the spec's worked example profile the health score evaluates to
`20 + min 25 ((150000/12)/65000*125) + 5 + 10 + 15 = 1925/26 ≈ 74.04`. -/
theorem C6_worked_example :
    FinancialDashboard.calculate_financial_health_score profileC6 = 1925 / 26 := by
  norm_num +decide [FinancialDashboard.calculate_financial_health_score,
    FinancialDashboard.debtTier, FinancialDashboard.emergencyTier,
    FinancialDashboard.investmentTier, UserData.getNum, lookupKey, profileC6,
    min_def]

/-- C7: holding every other field fixed, the health score is monotone
non-decreasing in the `savings_total` field. -/
theorem C7_monotone_in_savings (d : UserData) (s1 s2 : ℚ) (hnn : NonNegData d)
    (h0 : 0 ≤ s1) (h12 : s1 ≤ s2) :
    FinancialDashboard.calculate_financial_health_score (d.setNum "savings_total" s1) ≤
      FinancialDashboard.calculate_financial_health_score (d.setNum "savings_total" s2) := by
  have e1 := fun v => getNum_setNum_other d "savings_total" "net_monthly_income" v 0 (by decide)
  have e2 := fun v => getNum_setNum_other d "savings_total" "debts_total" v 0 (by decide)
  have e3 := fun v => getNum_setNum_other d "savings_total" "emergency_fund" v 0 (by decide)
  have e4 := fun v => getNum_setNum_other d "savings_total" "fixed_costs_total" v 0 (by decide)
  have e5 := fun v => getNum_setNum_other d "savings_total" "investments_total" v 0 (by decide)
  have e6 := fun v => getNum_setNum_other d "savings_total" "assets_total" v 0 (by decide)
  simp only [FinancialDashboard.calculate_financial_health_score, getNum_setNum_self,
    e1, e2, e3, e4, e5, e6]
  have hmono :
      (if d.getNum "net_monthly_income" 0 > 0 then
          min 25 (s1 / 12 / d.getNum "net_monthly_income" 0 * 125)
        else 0) ≤
      (if d.getNum "net_monthly_income" 0 > 0 then
          min 25 (s2 / 12 / d.getNum "net_monthly_income" 0 * 125)
        else 0) := by
    split_ifs with hinc
    · exact min_le_min le_rfl (by gcongr)
    · exact le_rfl
  exact min_le_min le_rfl (by linarith [hmono])

/-- C7 witness: raising the worked example's savings from 0 to 12 does not
lower the health score. -/
theorem C7_monotone_in_savings_witness :
    NonNegData profileC6 ∧ (0:ℚ) ≤ 0 ∧ (0:ℚ) ≤ 12 ∧
      FinancialDashboard.calculate_financial_health_score
          (profileC6.setNum "savings_total" 0) ≤
        FinancialDashboard.calculate_financial_health_score
          (profileC6.setNum "savings_total" 12) :=
  ⟨by decide, le_rfl, by norm_num,
    C7_monotone_in_savings profileC6 0 12 (by decide) le_rfl (by norm_num)⟩

theorem lookupKey_append {α : Type} (l1 l2 : List (String × α)) (k : String) :
    lookupKey (l1 ++ l2) k =
      match lookupKey l1 k with
      | some v => some v
      | none => lookupKey l2 k := by
  induction l1 with
  | nil => simp [lookupKey]
  | cons p rest ih =>
      obtain ⟨k', v'⟩ := p
      by_cases hk : k' = k <;> simp [lookupKey, hk, ih]

/-- C4 counterexample: the profile with `net_monthly_income = 0` and
`gross_monthly_income = 100` satisfies the claim's premise, yet
`calculate_financial_ratios` still contains the key `tax_efficiency`
(with value `0 / 100 = 0`), because that key is guarded by
`gross_monthly_income > 0`, not by the net income. -/
theorem C4_tax_efficiency_present :
    profileZeroNet.getNum "net_monthly_income" 0 = 0 ∧
      lookupKey (DataPreprocessor.calculate_financial_ratios profileZeroNet)
          "tax_efficiency" = some 0 := by
  constructor
  · norm_num +decide [UserData.getNum, lookupKey, profileZeroNet]
  · norm_num +decide [DataPreprocessor.calculate_financial_ratios,
      UserData.getNum, lookupKey, lookupKey_append, profileZeroNet]

/-- C4 amended: for every profile with `net_monthly_income = 0`, the ratio
mapping contains none of the keys `expense_ratio`, `savings_rate`,
`debt_to_income`; `tax_efficiency` is governed by `gross_monthly_income`
instead and may still be present. -/
theorem C4_zero_income_omits_ratios (d : UserData)
    (h : d.getNum "net_monthly_income" 0 = 0) :
    lookupKey (DataPreprocessor.calculate_financial_ratios d) "expense_ratio" = none ∧
      lookupKey (DataPreprocessor.calculate_financial_ratios d) "savings_rate" = none ∧
      lookupKey (DataPreprocessor.calculate_financial_ratios d) "debt_to_income" = none := by
  simp only [DataPreprocessor.calculate_financial_ratios, h]
  norm_num
  split_ifs <;> simp +decide [lookupKey, lookupKey_append]

/-- C4 witness: the amended omission holds at the zero-net-income profile. -/
theorem C4_zero_income_omits_ratios_witness :
    profileNoIncome.getNum "net_monthly_income" 0 = 0 ∧
      (lookupKey (DataPreprocessor.calculate_financial_ratios profileNoIncome)
          "expense_ratio" = none ∧
        lookupKey (DataPreprocessor.calculate_financial_ratios profileNoIncome)
          "savings_rate" = none ∧
        lookupKey (DataPreprocessor.calculate_financial_ratios profileNoIncome)
          "debt_to_income" = none) :=
  ⟨by decide, C4_zero_income_omits_ratios profileNoIncome (by decide)⟩

/-- C5: for every profile with non-negative numeric fields,
`calculate_risk_factors` returns exactly the five fixed category keys in
order, every value lies in `[0, 10]`, and when the net monthly income is
zero the Debt Risk value is 10 while Insurance Coverage and Expense
Management are both 8. -/
theorem C5_risk_factors_shape (d : UserData) (h : NonNegData d) :
    (FinancialDashboard.calculate_risk_factors d).map Prod.fst =
        ["Debt Risk", "Emergency Fund", "Investment Risk",
         "Insurance Coverage", "Expense Management"] ∧
      (∀ p ∈ FinancialDashboard.calculate_risk_factors d, 0 ≤ p.2 ∧ p.2 ≤ 10) ∧
      (d.getNum "net_monthly_income" 0 = 0 →
        lookupKey (FinancialDashboard.calculate_risk_factors d) "Debt Risk" = some 10 ∧
          lookupKey (FinancialDashboard.calculate_risk_factors d)
            "Insurance Coverage" = some 8 ∧
          lookupKey (FinancialDashboard.calculate_risk_factors d)
            "Expense Management" = some 8) := by
  have hdebt := getNum_nonneg h "debts_total"
  have hef := getNum_nonneg h "emergency_fund"
  have hins := getNum_nonneg h "insurance"
  have hfc := getNum_nonneg h "fixed_costs_total"
  refine ⟨by simp [FinancialDashboard.calculate_risk_factors], ?_, ?_⟩
  · intro p hp
    simp only [FinancialDashboard.calculate_risk_factors, List.mem_cons,
      List.not_mem_nil, or_false] at hp
    rcases hp with rfl | rfl | rfl | rfl | rfl
    · constructor
      · split_ifs with hinc
        · exact le_min (by norm_num)
            (mul_nonneg (div_nonneg hdebt (mul_pos hinc (by norm_num)).le) (by norm_num))
        · norm_num
      · split_ifs
        · exact min_le_left _ _
        · norm_num
    · constructor
      · split_ifs
        · exact le_max_left _ _
        · norm_num
      · split_ifs with hexp
        · have : (0:ℚ) ≤ d.getNum "emergency_fund" 0 / d.getNum "fixed_costs_total" 0 * 1.5 :=
            mul_nonneg (div_nonneg hef hfc) (by norm_num)
          exact max_le (by norm_num) (by linarith)
        · norm_num
    · split_ifs <;> norm_num
    · constructor
      · split_ifs
        · exact le_max_left _ _
        · norm_num
      · split_ifs with hinc
        · have : (0:ℚ) ≤ d.getNum "insurance" 0 / d.getNum "net_monthly_income" 0 * 20 :=
            mul_nonneg (div_nonneg hins hinc.le) (by norm_num)
          exact max_le (by norm_num) (by linarith)
        · norm_num
    · constructor
      · split_ifs with hinc
        · exact le_min (by norm_num)
            (mul_nonneg (div_nonneg hfc hinc.le) (by norm_num))
        · norm_num
      · split_ifs
        · exact min_le_left _ _
        · norm_num
  · intro h0
    simp only [FinancialDashboard.calculate_risk_factors, h0]
    norm_num +decide [lookupKey]

/-- C5 witness: the shape, bounds and zero-income values hold at the
profile recording a zero net monthly income. -/
theorem C5_risk_factors_shape_witness :
    NonNegData profileNoIncome ∧
      ((FinancialDashboard.calculate_risk_factors profileNoIncome).map Prod.fst =
          ["Debt Risk", "Emergency Fund", "Investment Risk",
           "Insurance Coverage", "Expense Management"] ∧
        (∀ p ∈ FinancialDashboard.calculate_risk_factors profileNoIncome,
          0 ≤ p.2 ∧ p.2 ≤ 10) ∧
        (profileNoIncome.getNum "net_monthly_income" 0 = 0 →
          lookupKey (FinancialDashboard.calculate_risk_factors profileNoIncome)
              "Debt Risk" = some 10 ∧
            lookupKey (FinancialDashboard.calculate_risk_factors profileNoIncome)
              "Insurance Coverage" = some 8 ∧
            lookupKey (FinancialDashboard.calculate_risk_factors profileNoIncome)
              "Expense Management" = some 8)) :=
  ⟨by decide, C5_risk_factors_shape profileNoIncome (by decide)⟩

/-- C10: for every profile with non-negative numeric fields, the Insurance
Coverage entry of `calculate_risk_factors` equals
`max 0 (8 - insurance / income * 20)` when the income is positive and the
constant 8 otherwise, and in either case is at most 8 — strictly tighter
than the documented `[0, 10]` range. -/
theorem C10_insurance_coverage_le_8 (d : UserData) (h : NonNegData d) :
    lookupKey (FinancialDashboard.calculate_risk_factors d) "Insurance Coverage" =
        some (if d.getNum "net_monthly_income" 0 > 0
              then max 0 (8 - d.getNum "insurance" 0 / d.getNum "net_monthly_income" 0 * 20)
              else 8) ∧
      ∀ v, lookupKey (FinancialDashboard.calculate_risk_factors d)
            "Insurance Coverage" = some v → v ≤ 8 := by
  have hins := getNum_nonneg h "insurance"
  have h1 : lookupKey (FinancialDashboard.calculate_risk_factors d) "Insurance Coverage" =
      some (if d.getNum "net_monthly_income" 0 > 0
            then max 0 (8 - d.getNum "insurance" 0 / d.getNum "net_monthly_income" 0 * 20)
            else 8) := by
    simp only [FinancialDashboard.calculate_risk_factors]
    norm_num +decide [lookupKey]
  refine ⟨h1, ?_⟩
  intro v hv
  rw [h1, Option.some.injEq] at hv
  subst hv
  split_ifs with hinc
  · have : (0:ℚ) ≤ d.getNum "insurance" 0 / d.getNum "net_monthly_income" 0 * 20 :=
      mul_nonneg (div_nonneg hins hinc.le) (by norm_num)
    exact max_le (by norm_num) (by linarith)
  · norm_num

/-- C10 witness: the Insurance Coverage entry at the worked example profile
(no insurance field, positive income) is `max 0 (8 - 0 * 20) = 8 ≤ 8`. -/
theorem C10_insurance_coverage_le_8_witness :
    NonNegData profileC6 ∧
      (lookupKey (FinancialDashboard.calculate_risk_factors profileC6)
            "Insurance Coverage" =
          some (if profileC6.getNum "net_monthly_income" 0 > 0
                then max 0 (8 - profileC6.getNum "insurance" 0 /
                  profileC6.getNum "net_monthly_income" 0 * 20)
                else 8) ∧
        ∀ v, lookupKey (FinancialDashboard.calculate_risk_factors profileC6)
              "Insurance Coverage" = some v → v ≤ 8) :=
  ⟨by decide, C10_insurance_coverage_le_8 profileC6 (by decide)⟩

/-- C1 counterexample: starting from a fresh (untrained) predictor, when
training fails because the reference dataset is unavailable,
`generate_predictions` returns the empty dict `{}` — it does not contain
the three horizon keys computed from neutral defaults. -/
theorem C1_training_failure_returns_empty :
    FinancialModels.fresh.is_trained = false ∧
      (FinancialModels.fresh.train_models envNoData).1 = false ∧
      FinancialModels.fresh.generate_predictions envNoData profileSmall = [] := by
  refine ⟨rfl, rfl, ?_⟩
  rfl

/-- C1 amended: when lazy training fails, `generate_predictions` returns
the empty mapping; the neutral-default fallback to a structurally valid
three-horizon PredictionSet (0 for the regression predictions, 0.5 for the
risk probability) occurs only when the predictor is already marked trained
while individual models are unavailable. -/
theorem C1_amended_training_failure_vs_degraded :
    (∀ (env : TrainEnv) (m : FinancialModels) (d : UserData),
        m.is_trained = false → env.dataset = none →
          m.generate_predictions env d = []) ∧
      (∀ (env : TrainEnv) (m : FinancialModels) (d : UserData),
        m.is_trained = true → m.expense_model = none → m.investment_model = none →
          m.risk_model = none → m.insurance_model = none →
          m.generate_predictions env d =
            [("1_year",
              { savings_growth := d.getNum "savings_total" 0 * 1.1 +
                  d.getNum "net_monthly_income" 0 * 0.2 * 12,
                investment_returns := 0, risk_score := 5,
                health_status := "Moderate" }),
             ("3_year",
              { savings_growth := d.getNum "savings_total" 0 * 1.35 +
                  d.getNum "net_monthly_income" 0 * 0.2 * 36,
                investment_returns := 0, risk_score := 5,
                health_status := "Moderate" }),
             ("10_year",
              { savings_growth := d.getNum "savings_total" 0 * 2.5 +
                  d.getNum "net_monthly_income" 0 * 0.25 * 120,
                investment_returns := 0, risk_score := 5,
                health_status := "Moderate" })]) := by
  constructor
  · intro env m d hm henv
    simp [FinancialModels.generate_predictions, FinancialModels.train_models, hm, henv]
  · intro env m d ht hexp hinv hrisk hins
    have hiv : m.predict_investment_potential env d = 0 := by
      unfold FinancialModels.predict_investment_potential FinancialModels.afterLazyTrain
      rw [ht]
      cases hpf : m.prepare_user_features d <;> simp [hpf, hinv]
    have hr : m.assess_risk env d = 0.5 := by
      unfold FinancialModels.assess_risk FinancialModels.afterLazyTrain
      rw [ht]
      cases hpf : m.prepare_user_features d <;> simp [hpf, hrisk]
    norm_num [FinancialModels.generate_predictions, ht, hiv, hr]

/-- C1 witness: the empty result at a fresh predictor with no dataset, and
the degraded three-horizon result at a trained predictor with no models,
evaluated on the small concrete profile. -/
theorem C1_amended_training_failure_vs_degraded_witness :
    FinancialModels.fresh.generate_predictions envNoData profileC6 = [] ∧
      mDegraded.generate_predictions envNoData profileSmall =
        [("1_year", { savings_growth := 2950, investment_returns := 0,
                      risk_score := 5, health_status := "Moderate" }),
         ("3_year", { savings_growth := 7875, investment_returns := 0,
                      risk_score := 5, health_status := "Moderate" }),
         ("10_year", { savings_growth := 31250, investment_returns := 0,
                       risk_score := 5, health_status := "Moderate" })] := by
  constructor
  · exact C1_amended_training_failure_vs_degraded.1 envNoData
      FinancialModels.fresh profileC6 rfl rfl
  · have h := C1_amended_training_failure_vs_degraded.2 envNoData
      mDegraded profileSmall rfl rfl rfl rfl rfl
    rw [h]
    norm_num +decide [UserData.getNum, lookupKey, profileSmall, HorizonPred.mk.injEq]

/-- C3 counterexample: with the predictor degraded so that the risk
probability is the neutral 0.5, the 10-year horizon's health status is
"Moderate" (the final else branch), not "Good" as the claim states. -/
theorem C3_ten_year_not_good :
    mDegraded.assess_risk envNoData profileSmall = 0.5 ∧
      (lookupKey (mDegraded.generate_predictions envNoData profileSmall) "10_year").map
          HorizonPred.health_status = some "Moderate" ∧
      (lookupKey (mDegraded.generate_predictions envNoData profileSmall) "10_year").map
          HorizonPred.health_status ≠ some "Good" := by
  have hr : mDegraded.assess_risk envNoData profileSmall = 0.5 := rfl
  have ht : mDegraded.is_trained = true := rfl
  refine ⟨hr, ?_, ?_⟩ <;>
    norm_num +decide [FinancialModels.generate_predictions, ht, hr, lookupKey]

/-- C3 amended: whenever the trained predictor's risk probability is 0.5,
all three horizons carry health status "Moderate" — 0.5 is not below the
1/3-year "Good" cutoff 0.3 but is below the 0.7 "High Risk" cutoff, and it
is not below either 10-year cutoff (0.2, 0.5), falling to the 10-year else
branch "Moderate". -/
theorem C3_amended_all_moderate (env : TrainEnv) (m : FinancialModels) (d : UserData)
    (ht : m.is_trained = true) (hr : m.assess_risk env d = 0.5) :
    (lookupKey (m.generate_predictions env d) "1_year").map HorizonPred.health_status =
        some "Moderate" ∧
      (lookupKey (m.generate_predictions env d) "3_year").map HorizonPred.health_status =
        some "Moderate" ∧
      (lookupKey (m.generate_predictions env d) "10_year").map HorizonPred.health_status =
        some "Moderate" := by
  norm_num +decide [FinancialModels.generate_predictions, ht, hr, lookupKey]

/-- C3 witness: the three "Moderate" statuses at the degraded predictor on
the worked example profile. -/
theorem C3_amended_all_moderate_witness :
    mDegraded.is_trained = true ∧
      mDegraded.assess_risk envNoData profileC6 = 0.5 ∧
      ((lookupKey (mDegraded.generate_predictions envNoData profileC6) "1_year").map
          HorizonPred.health_status = some "Moderate" ∧
        (lookupKey (mDegraded.generate_predictions envNoData profileC6) "3_year").map
          HorizonPred.health_status = some "Moderate" ∧
        (lookupKey (mDegraded.generate_predictions envNoData profileC6) "10_year").map
          HorizonPred.health_status = some "Moderate") :=
  ⟨rfl, rfl, C3_amended_all_moderate envNoData mDegraded profileC6 rfl rfl⟩

/-- C8 counterexample: on a non-empty profile that omits `household_size`,
`prepare_user_features` substitutes the default 1 — not 0 — in the first
slot of the feature vector. -/
theorem C8_household_size_defaults_to_one :
    lookupKey profileSmall.numEntries "household_size" = none ∧
      FinancialModels.fresh.prepare_user_features profileSmall =
        some [1, 0, 0, 0, 0, 1000, 0, 0, 500, 0] := by
  refine ⟨rfl, ?_⟩
  decide

/-- C8 amended: on a non-empty profile, every absent numeric field of the
feature vector except `household_size` is substituted with 0, while an
absent `household_size` is substituted with 1; `calculate_financial_ratios`
treats an absent monetary field as 0 (shown for `savings_total`, whose
absence makes the savings rate `(0/12)/net = 0`). -/
theorem C8_amended_feature_defaults (m : FinancialModels) (d : UserData)
    (hne : d.isEmpty = false) :
    ∃ fv, m.prepare_user_features d = some fv ∧
      (lookupKey d.numEntries "household_size" = none → fv[0]? = some 1) ∧
      (lookupKey d.numEntries "number_of_kids" = none → fv[1]? = some 0) ∧
      (lookupKey d.numEntries "gross_monthly_income" = none → fv[4]? = some 0) ∧
      (lookupKey d.numEntries "net_monthly_income" = none → fv[5]? = some 0) ∧
      (lookupKey d.numEntries "assets_total" = none → fv[6]? = some 0) ∧
      (lookupKey d.numEntries "investments_total" = none → fv[7]? = some 0) ∧
      (lookupKey d.numEntries "savings_total" = none → fv[8]? = some 0) ∧
      (lookupKey d.numEntries "debts_total" = none → fv[9]? = some 0) ∧
      (lookupKey d.numEntries "savings_total" = none →
        d.getNum "net_monthly_income" 0 > 0 →
        lookupKey (DataPreprocessor.calculate_financial_ratios d) "savings_rate" = some 0) := by
  unfold FinancialModels.prepare_user_features
  simp only [hne, Bool.false_eq_true, if_false]
  refine ⟨_, rfl, ?_, ?_, ?_, ?_, ?_, ?_, ?_, ?_, ?_⟩
  · intro habs
    simp [UserData.getNum, habs]
  · intro habs
    simp [UserData.getNum, habs]
  · intro habs
    simp [UserData.getNum, habs]
  · intro habs
    simp [UserData.getNum, habs]
  · intro habs
    simp [UserData.getNum, habs]
  · intro habs
    simp [UserData.getNum, habs]
  · intro habs
    simp [UserData.getNum, habs]
  · intro habs
    simp [UserData.getNum, habs]
  · intro habs hpos
    have hs0 : d.getNum "savings_total" 0 = 0 := by simp [UserData.getNum, habs]
    simp only [DataPreprocessor.calculate_financial_ratios, hs0, if_pos hpos]
    split_ifs <;> simp +decide [lookupKey, lookupKey_append]

/-- C8 witness: the defaults at a non-empty profile that omits every
feature-vector field. -/
theorem C8_amended_feature_defaults_witness :
    profileOnlyAge.isEmpty = false ∧
      (∃ fv, FinancialModels.fresh.prepare_user_features profileOnlyAge = some fv ∧
        (lookupKey profileOnlyAge.numEntries "household_size" = none → fv[0]? = some 1) ∧
        (lookupKey profileOnlyAge.numEntries "number_of_kids" = none → fv[1]? = some 0) ∧
        (lookupKey profileOnlyAge.numEntries "gross_monthly_income" = none → fv[4]? = some 0) ∧
        (lookupKey profileOnlyAge.numEntries "net_monthly_income" = none → fv[5]? = some 0) ∧
        (lookupKey profileOnlyAge.numEntries "assets_total" = none → fv[6]? = some 0) ∧
        (lookupKey profileOnlyAge.numEntries "investments_total" = none → fv[7]? = some 0) ∧
        (lookupKey profileOnlyAge.numEntries "savings_total" = none → fv[8]? = some 0) ∧
        (lookupKey profileOnlyAge.numEntries "debts_total" = none → fv[9]? = some 0) ∧
        (lookupKey profileOnlyAge.numEntries "savings_total" = none →
          profileOnlyAge.getNum "net_monthly_income" 0 > 0 →
          lookupKey (DataPreprocessor.calculate_financial_ratios profileOnlyAge)
            "savings_rate" = some 0)) :=
  ⟨rfl, C8_amended_feature_defaults FinancialModels.fresh profileOnlyAge rfl⟩

/-- C9: the expense and insurance predictions are computed but never
influence any horizon record: two trained predictor states and profiles
that agree on `savings_total`, `net_monthly_income`, the investment
prediction and the risk probability yield identical PredictionSets, whatever
their expense and insurance models output. -/
theorem C9_expense_insurance_models_unused (env1 env2 : TrainEnv)
    (m1 m2 : FinancialModels) (d1 d2 : UserData)
    (h1 : m1.is_trained = true) (h2 : m2.is_trained = true)
    (hs : d1.getNum "savings_total" 0 = d2.getNum "savings_total" 0)
    (hi : d1.getNum "net_monthly_income" 0 = d2.getNum "net_monthly_income" 0)
    (hinv : m1.predict_investment_potential env1 d1 =
      m2.predict_investment_potential env2 d2)
    (hrisk : m1.assess_risk env1 d1 = m2.assess_risk env2 d2) :
    m1.generate_predictions env1 d1 = m2.generate_predictions env2 d2 := by
  simp [FinancialModels.generate_predictions, h1, h2, hs, hi, hinv, hrisk]

/-- C9 witness: a trained state with non-trivial expense and insurance
models produces the same PredictionSet as the fully degraded trained state
on the same profile. -/
theorem C9_expense_insurance_models_unused_witness :
    mExpenseOnly.is_trained = true ∧ mDegraded.is_trained = true ∧
      profileSmall.getNum "savings_total" 0 = profileSmall.getNum "savings_total" 0 ∧
      profileSmall.getNum "net_monthly_income" 0 =
        profileSmall.getNum "net_monthly_income" 0 ∧
      mExpenseOnly.predict_investment_potential envNoData profileSmall =
        mDegraded.predict_investment_potential envNoData profileSmall ∧
      mExpenseOnly.assess_risk envNoData profileSmall =
        mDegraded.assess_risk envNoData profileSmall ∧
      mExpenseOnly.generate_predictions envNoData profileSmall =
        mDegraded.generate_predictions envNoData profileSmall :=
  ⟨rfl, rfl, rfl, rfl, rfl, rfl,
    C9_expense_insurance_models_unused envNoData envNoData mExpenseOnly mDegraded
      profileSmall profileSmall rfl rfl rfl rfl rfl rfl⟩
